import Mathlib

/-!
Shallow embedding of the finance (ledger and audit) module of the lynerp
repository: the Django models, admin actions and view mixins that the
verified properties concern, translated into pure Lean definitions.

Monetary Decimal(14,2) columns are modelled as integers counted in cents;
the Decimal(18,8) exchange-rate column as an integer counted in 1e-8 units.
JSON blob columns (before / after / meta) are modelled as already-serialized
opaque strings. The SHA-256 hex digest used by the audit trail is modelled
as an explicit parameter of type String to String, since only the data flow
into and out of the digest is at issue, never the digest internals; where a
concrete instance is needed the relevant fact about hashlib's hexdigest is
that it returns a 64-character (hence non-empty) string.
-/

namespace Lynerp

/-- A row of finance.AccountingPeriod (models.py): status is one of
OPEN, LOCKED, CLOSED. -/
structure PeriodRec where
  id : Nat
  tenant : Nat
  fiscal_year : Nat
  name : String
  status : String
  deriving Repr, DecidableEq

/-- A row of finance.JournalEntry (models.py): status is one of
DRAFT, POSTED, CANCELLED. -/
structure JournalEntryRec where
  id : Nat
  tenant : Nat
  journal : Nat
  period : Nat
  reference : String
  label : String
  status : String
  source_model : String
  source_object_id : String
  deriving Repr, DecidableEq

/-- A row of finance.JournalLine (models.py): debit and credit are
Decimal(14,2) in cents, amount_currency likewise. -/
structure JournalLineRec where
  id : Nat
  tenant : Nat
  entry : Nat
  account : Nat
  label : String
  debit : Int
  credit : Int
  currency : String
  amount_currency : Int
  deriving Repr, DecidableEq

/-- The ledger part of the relational store that the journal operations
read and write. -/
structure LedgerState where
  periods : List PeriodRec
  entries : List JournalEntryRec
  lines : List JournalLineRec
  deriving Repr, DecidableEq

/-- The lines related to one entry: the reverse foreign-key set
entry.lines used by the total_debit / total_credit aggregates. -/
def linesOf (eid : Nat) (ls : List JournalLineRec) : List JournalLineRec :=
  ls.filter (fun l => l.entry == eid)

/-- JournalEntry.total_debit (models.py line 268): Sum of the debit column
over the entry's lines; the aggregate yields None on an empty set and the
Python code coalesces that to Decimal 0, which coincides with the empty sum. -/
def total_debit (eid : Nat) (ls : List JournalLineRec) : Int :=
  ((linesOf eid ls).map (fun l => l.debit)).sum

/-- JournalEntry.total_credit (models.py line 272). -/
def total_credit (eid : Nat) (ls : List JournalLineRec) : Int :=
  ((linesOf eid ls).map (fun l => l.credit)).sum

/-- JournalEntry.is_balanced (models.py line 275): exact equality of the
two aggregates. -/
def is_balanced (eid : Nat) (ls : List JournalLineRec) : Bool :=
  total_debit eid ls == total_credit eid ls

/-- The per-entry body of JournalEntryAdmin.post_entries (admin.py lines
260-264): an entry in the selected queryset gets status POSTED when its
status is DRAFT, otherwise it is left as it is. No other field is read or
written. -/
def postOne (sel : Nat → Bool) (e : JournalEntryRec) : JournalEntryRec :=
  if sel e.id && (e.status == "DRAFT") then { e with status := "POSTED" } else e

/-- JournalEntryAdmin.post_entries (admin.py lines 260-264): iterates over
the selected DRAFT entries and saves each with status POSTED. Lines and
periods are never touched. -/
def post_entries (sel : Nat → Bool) (s : LedgerState) : LedgerState :=
  { s with entries := s.entries.map (postOne sel) }

/-- The per-entry body of JournalEntryAdmin.cancel_entries (admin.py lines
268-272): a selected DRAFT entry gets status CANCELLED, any other entry is
left as it is. -/
def cancelOne (sel : Nat → Bool) (e : JournalEntryRec) : JournalEntryRec :=
  if sel e.id && (e.status == "DRAFT") then { e with status := "CANCELLED" } else e

/-- JournalEntryAdmin.cancel_entries (admin.py lines 268-272): iterates over
the selected DRAFT entries and saves each with status CANCELLED. Nothing is
deleted; lines and periods are never touched. -/
def cancel_entries (sel : Nat → Bool) (s : LedgerState) : LedgerState :=
  { s with entries := s.entries.map (cancelOne sel) }

/-- The database check constraint line_debit_or_credit_only on JournalLine
(models.py lines 294-303): debit positive with credit zero, or credit
positive with debit zero, or both zero. -/
def lineCheck (l : JournalLineRec) : Prop :=
  (0 < l.debit ∧ l.credit = 0) ∨ (0 < l.credit ∧ l.debit = 0) ∨
    (l.credit = 0 ∧ l.debit = 0)

instance : DecidablePred lineCheck := fun l => by
  unfold lineCheck
  exact inferInstance

/-- MasterWithLinesMixin.form_valid (views.py lines 194-217) specialised to
JournalEntryCreate: the master entry is saved first, unconditionally; then
the line formset is validated (model validation enforces the line check
constraint) and, when valid, the lines are saved; when the formset is
invalid the method returns form_invalid, leaving the already-saved master
in place. No field of the entry's accounting period is ever read. -/
def form_valid (s : LedgerState) (e : JournalEntryRec) (ls : List JournalLineRec) :
    LedgerState :=
  let s1 : LedgerState := { s with entries := s.entries ++ [e] }
  if ls.all (fun l => decide (lineCheck l)) then { s1 with lines := s1.lines ++ ls }
  else s1

/-- A row of finance.ExchangeRate (models.py lines 370-400): rate is the
Decimal(18,8) column counted in 1e-8 units; date is a day ordinal. -/
structure ExchangeRateRec where
  id : Nat
  tenant : Nat
  date : Nat
  base_currency : String
  quote_currency : String
  rate : Int
  source : String
  is_locked : Bool
  deriving Repr, DecidableEq

/-- The key of the unique constraint uniq_fx_rate_per_day (models.py
lines 392-395). -/
def fxKey (r : ExchangeRateRec) : Nat × Nat × String × String :=
  (r.tenant, r.date, r.base_currency, r.quote_currency)

/-- Row-level validation of ExchangeRate: MinValueValidator 0 on rate
(models.py line 384) admits every value greater than or equal to zero, and
the check constraint fx_currencies_diff (models.py line 391) requires the
two currencies to differ. -/
def fxAdmissible (r : ExchangeRateRec) : Prop :=
  0 ≤ r.rate ∧ r.base_currency ≠ r.quote_currency

instance : DecidablePred fxAdmissible := fun r => by
  unfold fxAdmissible
  exact inferInstance

/-- Persisting an ExchangeRate row: the write succeeds when the row passes
its validation and no stored row already carries the same unique key;
otherwise the store rejects it. -/
def fxInsert (tbl : List ExchangeRateRec) (r : ExchangeRateRec) :
    Option (List ExchangeRateRec) :=
  if decide (fxAdmissible r) && tbl.all (fun q => !(decide (fxKey q = fxKey r))) then
    some (tbl ++ [r])
  else none

/-- A row of finance.AuditEvent (models.py lines 38-94). The before, after
and meta JSON columns are carried as already-serialized opaque strings;
created_at is the auto_now_add timestamp, absent until the row is inserted. -/
structure AuditEventRec where
  tenant_id : String
  actor_id : Option String
  action : String
  model_label : String
  object_id : String
  object_repr : String
  before : String
  after : String
  meta : String
  created_at : Option String
  prev_hash : String
  event_hash : String
  deriving Repr, DecidableEq

/-- JSON string literal; field values are treated as JSON-safe opaque
blobs, following the design note that the audit payload only has to be
stable for hashing, not interpreted. -/
def jsonString (s : String) : String := "\"" ++ s ++ "\""

/-- JSON rendering of a nullable string field: null when absent. -/
def jsonNullable (s : Option String) : String :=
  match s with
  | none => "null"
  | some v => jsonString v

/-- The canonical payload of AuditEvent.compute_hash (models.py lines
71-84): json.dumps of the ten listed fields with sort_keys, compact
separators. Keys appear in sorted order: action, actor_id, after, before,
created_at, meta, model_label, object_id, prev_hash, tenant_id. The
object_repr column is not part of the payload. -/
def payloadString (e : AuditEventRec) : String :=
  "\x7b\"action\":" ++ jsonString e.action ++
  ",\"actor_id\":" ++ jsonNullable e.actor_id ++
  ",\"after\":" ++ e.after ++
  ",\"before\":" ++ e.before ++
  ",\"created_at\":" ++ jsonNullable e.created_at ++
  ",\"meta\":" ++ e.meta ++
  ",\"model_label\":" ++ jsonString e.model_label ++
  ",\"object_id\":" ++ jsonString e.object_id ++
  ",\"prev_hash\":" ++ jsonString e.prev_hash ++
  ",\"tenant_id\":" ++ jsonString e.tenant_id ++ "\x7d"

/-- AuditEvent.compute_hash (models.py line 85): the hex digest of the
canonical payload, with the digest function passed explicitly. -/
def compute_hash (hash : String → String) (e : AuditEventRec) : String :=
  hash (payloadString e)

/-- AuditEvent.save on a new row (models.py lines 87-94): the insert sets
created_at (auto_now_add), then, when event_hash is still empty, the hash
of the inserted state is computed and stored by a second save restricted to
the event_hash column. prev_hash is never read or written here. -/
def save_insert (hash : String → String) (now : String) (e : AuditEventRec) :
    AuditEventRec :=
  let e1 : AuditEventRec := { e with created_at := some now }
  if e1.event_hash == "" then { e1 with event_hash := compute_hash hash e1 } else e1

/-- AuditEvent.save on an already-inserted row (models.py lines 87-94):
created_at is not auto-set again, and the event_hash branch only fires when
the stored hash is still empty. -/
def save_update (hash : String → String) (e : AuditEventRec) : AuditEventRec :=
  if e.event_hash == "" then { e with event_hash := compute_hash hash e } else e

/-- Appending a freshly constructed event to a tenant's creation-ordered
event log through AuditEvent.save. -/
def appendEvent (hash : String → String) (now : String)
    (log : List AuditEventRec) (e : AuditEventRec) : List AuditEventRec :=
  log ++ [save_insert hash now e]

/-- The per-tenant hash-chain linkage: each event's prev_hash equals the
event_hash of the immediately preceding event of the log. -/
def chainOk : List AuditEventRec → Bool
  | [] => true
  | [_] => true
  | a :: b :: rest => (b.prev_hash == a.event_hash) && chainOk (b :: rest)

/-- A tenant-owned row as seen by the queryset-scoping layer: only the
owning tenant matters here. -/
structure ObjRec where
  id : Nat
  tenant : Nat
  deriving Repr, DecidableEq

/-- TenantQuerysetMixin.get_queryset (views.py lines 81-94): filter by
request.tenant when the middleware resolved one, else by request.tenant_id
when present, else return the empty queryset. -/
def web_get_queryset (tenant : Option Nat) (tenant_id : Option Nat)
    (qs : List ObjRec) : List ObjRec :=
  match tenant with
  | some t => qs.filter (fun o => o.tenant == t)
  | none =>
    match tenant_id with
    | some tid => qs.filter (fun o => o.tenant == tid)
    | none => []

/-- The tenant the web mixin effectively scopes to: request.tenant first,
request.tenant_id as fallback, otherwise none. -/
def webResolved (tenant : Option Nat) (tenant_id : Option Nat) : Option Nat :=
  match tenant with
  | some t => some t
  | none => tenant_id

/-- TenantScopedViewSet.get_queryset (api/views.py lines 117-122): the
request resolves to a tenant id or to none; with none the queryset is
empty, otherwise it is filtered on the tenant foreign key. -/
def api_get_queryset (resolved : Option Nat) (qs : List ObjRec) : List ObjRec :=
  match resolved with
  | none => []
  | some tid => qs.filter (fun o => o.tenant == tid)

/-! Concrete sample rows used to evaluate the operations on explicit inputs. -/

/-- An open accounting period. -/
def periodOpen : PeriodRec :=
  { id := 1, tenant := 1, fiscal_year := 1, name := "2026-01", status := "OPEN" }

/-- A closed accounting period. -/
def periodClosed : PeriodRec :=
  { id := 7, tenant := 1, fiscal_year := 1, name := "2026-02", status := "CLOSED" }

/-- A draft entry with no caller-supplied reference. -/
def entryU : JournalEntryRec :=
  { id := 1, tenant := 1, journal := 1, period := 1, reference := "", label := "sale",
    status := "DRAFT", source_model := "", source_object_id := "" }

/-- A debit line of 1000.00 on the sample entry. -/
def lineU1 : JournalLineRec :=
  { id := 1, tenant := 1, entry := 1, account := 411, label := "", debit := 100000,
    credit := 0, currency := "XOF", amount_currency := 0 }

/-- A credit line of 900.00 on the sample entry: together with the debit
line the entry is unbalanced by 100.00. -/
def lineU2 : JournalLineRec :=
  { id := 2, tenant := 1, entry := 1, account := 701, label := "", debit := 0,
    credit := 90000, currency := "XOF", amount_currency := 0 }

/-- A ledger holding one unbalanced draft entry in an open period. -/
def stateU : LedgerState :=
  { periods := [periodOpen], entries := [entryU], lines := [lineU1, lineU2] }

/-- A draft entry targeting the closed period. -/
def entryC4 : JournalEntryRec :=
  { id := 4, tenant := 1, journal := 1, period := 7, reference := "", label := "late",
    status := "DRAFT", source_model := "", source_object_id := "" }

/-- Balanced lines for the entry targeting the closed period. -/
def linesC4 : List JournalLineRec :=
  [{ id := 41, tenant := 1, entry := 4, account := 512, label := "", debit := 50000,
     credit := 0, currency := "XOF", amount_currency := 0 },
   { id := 42, tenant := 1, entry := 4, account := 701, label := "", debit := 0,
     credit := 50000, currency := "XOF", amount_currency := 0 }]

/-- A ledger whose only period is closed. -/
def stateC4 : LedgerState :=
  { periods := [periodClosed], entries := [], lines := [] }

/-- A draft entry used to exercise the cancel action. -/
def entryD : JournalEntryRec :=
  { id := 9, tenant := 1, journal := 1, period := 1, reference := "X", label := "draft",
    status := "DRAFT", source_model := "", source_object_id := "" }

/-- A line belonging to the cancellable draft entry. -/
def lineD : JournalLineRec :=
  { id := 9, tenant := 1, entry := 9, account := 512, label := "", debit := 1000,
    credit := 0, currency := "XOF", amount_currency := 0 }

/-- A ledger holding the cancellable draft entry and its line. -/
def stateD : LedgerState :=
  { periods := [periodOpen], entries := [entryD], lines := [lineD] }

/-- An exchange rate of exactly zero between two distinct currencies. -/
def fx0 : ExchangeRateRec :=
  { id := 1, tenant := 1, date := 20260101, base_currency := "XOF",
    quote_currency := "USD", rate := 0, source := "Manual", is_locked := false }

/-- A stand-in digest with the shape of hashlib's sha256 hexdigest: it
returns a 64-character hex string on every input, the only property of the
digest that the statements below use. -/
def hex64 : String → String :=
  fun _ => "aaaaaaaaaaaaaaaaaaaaaaaaaaaaaaaaaaaaaaaaaaaaaaaaaaaaaaaaaaaaaaaa"

/-- Another executable digest stand-in, used to instantiate statements that
hold for every digest function. -/
def hLen : String → String :=
  fun s => toString s.length

/-- An audit event as freshly constructed before its first save: model
defaults leave prev_hash and event_hash empty and created_at unset. -/
def evFresh (oid : String) : AuditEventRec :=
  { tenant_id := "t1", actor_id := none, action := "CREATE",
    model_label := "finance.JournalEntry", object_id := oid, object_repr := "",
    before := "\x7b\x7d", after := "\x7b\x7d", meta := "\x7b\x7d",
    created_at := none, prev_hash := "", event_hash := "" }

/-- The fresh event with a distinguishing object_repr, variant A. -/
def evReprA : AuditEventRec := { evFresh "7" with object_repr := "A" }

/-- The fresh event with a distinguishing object_repr, variant B. -/
def evReprB : AuditEventRec := { evFresh "7" with object_repr := "B" }

/-- An event whose hash is already set, as after its first save. -/
def evHashed : AuditEventRec := { evFresh "9" with event_hash := "feedface" }

/-! Helper lemmas shared by the claim theorems. -/

theorem postOne_reference (sel : Nat → Bool) (e : JournalEntryRec) :
    (postOne sel e).reference = e.reference := by
  unfold postOne
  split <;> rfl

theorem amountSet_entry (l : JournalLineRec) (x : Int) :
    ({ l with amount_currency := x }).entry = l.entry := rfl

theorem amountSet_debit (l : JournalLineRec) (x : Int) :
    ({ l with amount_currency := x }).debit = l.debit := rfl

theorem amountSet_credit (l : JournalLineRec) (x : Int) :
    ({ l with amount_currency := x }).credit = l.credit := rfl

theorem total_debit_map_amount (eid : Nat) (g : JournalLineRec → Int)
    (ls : List JournalLineRec) :
    total_debit eid (ls.map (fun l => { l with amount_currency := g l }))
      = total_debit eid ls := by
  induction ls with
  | nil => rfl
  | cons l t ih =>
    simp only [total_debit, linesOf, List.map_cons, List.filter_cons] at ih ⊢
    by_cases h : (l.entry == eid) = true
    · simp only [amountSet_entry, h, if_true, List.map_cons, List.sum_cons,
        amountSet_debit]
      omega
    · simp only [amountSet_entry, h, if_false, Bool.false_eq_true]
      exact ih

theorem total_credit_map_amount (eid : Nat) (g : JournalLineRec → Int)
    (ls : List JournalLineRec) :
    total_credit eid (ls.map (fun l => { l with amount_currency := g l }))
      = total_credit eid ls := by
  induction ls with
  | nil => rfl
  | cons l t ih =>
    simp only [total_credit, linesOf, List.map_cons, List.filter_cons] at ih ⊢
    by_cases h : (l.entry == eid) = true
    · simp only [amountSet_entry, h, if_true, List.map_cons, List.sum_cons,
        amountSet_credit]
      omega
    · simp only [amountSet_entry, h, if_false, Bool.false_eq_true]
      exact ih

theorem api_mem_iff (rt : Option Nat) (qs : List ObjRec) (o : ObjRec) :
    o ∈ api_get_queryset rt qs ↔ o ∈ qs ∧ rt = some o.tenant := by
  cases rt with
  | none => simp [api_get_queryset]
  | some tid =>
    simp only [api_get_queryset, List.mem_filter, beq_iff_eq, Option.some.injEq]
    constructor
    · exact fun h => ⟨h.1, h.2.symm⟩
    · exact fun h => ⟨h.1, h.2.symm⟩

theorem web_eq_api (t tid : Option Nat) (qs : List ObjRec) :
    web_get_queryset t tid qs = api_get_queryset (webResolved t tid) qs := by
  cases t <;> cases tid <;> rfl

/-! The claim theorems. -/

/-- Claim C1, counterexample: the ledger stateU holds a single DRAFT entry
whose lines are a 1000.00 debit against a 900.00 credit; the admin post
action turns it POSTED even though it is not balanced, so an unbalanced
entry does reach status POSTED. -/
theorem post_entries_posts_unbalanced :
    ((post_entries (fun _ => true) stateU).entries.map (fun e => e.status) = ["POSTED"])
    ∧ is_balanced 1 (post_entries (fun _ => true) stateU).lines = false
    ∧ lineCheck lineU1 ∧ lineCheck lineU2 := by
  decide

/-- Claim C1, amended: the post action flips every selected DRAFT entry to
POSTED unconditionally - it re-validates neither balance nor period status,
and leaves the lines and periods untouched, so the balance of an entry is
unchanged by posting and an unbalanced entry can become POSTED. -/
theorem post_entries_no_balance_check :
    ∀ (sel : Nat → Bool) (s : LedgerState) (e : JournalEntryRec),
      e ∈ s.entries → e.status = "DRAFT" → sel e.id = true →
        { e with status := "POSTED" } ∈ (post_entries sel s).entries
        ∧ (post_entries sel s).lines = s.lines
        ∧ (post_entries sel s).periods = s.periods := by
  intro sel s e he hs hsel
  refine ⟨?_, rfl, rfl⟩
  exact List.mem_map.mpr ⟨e, he, by simp [postOne, hs, hsel]⟩

/-- Claim C1, witness for the amended theorem at the concrete unbalanced
ledger stateU. -/
theorem post_entries_no_balance_check_witness :
    { entryU with status := "POSTED" } ∈ (post_entries (fun _ => true) stateU).entries
    ∧ (post_entries (fun _ => true) stateU).lines = stateU.lines
    ∧ (post_entries (fun _ => true) stateU).periods = stateU.periods :=
  post_entries_no_balance_check (fun _ => true) stateU entryU (by decide) (by decide) rfl

/-- Claim C2, failing-input evaluation: AuditEvent.save never reads the
previous event of the tenant, so prev_hash stays whatever the caller set
(the model default is the empty string). Appending two freshly constructed
events to an empty tenant log leaves the chain unlinked for any digest of
hexdigest shape: the second event's prev_hash is empty while the first
event's event_hash is a 64-character digest. -/
theorem audit_chain_not_linked :
    (∀ (hash : String → String) (now : String) (e : AuditEventRec),
        (save_insert hash now e).prev_hash = e.prev_hash)
    ∧ chainOk
        (appendEvent hex64 "2026-01-02T00:00:00"
          (appendEvent hex64 "2026-01-01T00:00:00" [] (evFresh "1")) (evFresh "2"))
        = false
    ∧ (save_insert hex64 "2026-01-01T00:00:00" (evFresh "1")).event_hash ≠ "" := by
  refine ⟨?_, by decide, by decide⟩
  intro hash now e
  unfold save_insert
  dsimp only
  split <;> rfl

/-- Claim C3: the event hash is a pure function of exactly the ten payload
fields - tenant, actor, action, model_label, object_id, before, after,
meta, created_at and prev_hash - for any digest function (in particular it
does not depend on object_repr or on the stored event_hash); the first save
computes it over the inserted state, created_at included; and a save on a
row whose event_hash is already set leaves the row unchanged. -/
theorem event_hash_pure_write_once :
    (∀ (hash : String → String) (e1 e2 : AuditEventRec),
        e1.tenant_id = e2.tenant_id → e1.actor_id = e2.actor_id →
        e1.action = e2.action → e1.model_label = e2.model_label →
        e1.object_id = e2.object_id → e1.before = e2.before →
        e1.after = e2.after → e1.meta = e2.meta →
        e1.created_at = e2.created_at → e1.prev_hash = e2.prev_hash →
          compute_hash hash e1 = compute_hash hash e2)
    ∧ (∀ (hash : String → String) (now : String) (e : AuditEventRec),
        e.event_hash = "" →
          (save_insert hash now e).event_hash
            = compute_hash hash { e with created_at := some now })
    ∧ (∀ (hash : String → String) (e : AuditEventRec),
        e.event_hash ≠ "" → save_update hash e = e) := by
  refine ⟨?_, ?_, ?_⟩
  · intro hash e1 e2 h1 h2 h3 h4 h5 h6 h7 h8 h9 h10
    unfold compute_hash payloadString
    rw [h1, h2, h3, h4, h5, h6, h7, h8, h9, h10]
  · intro hash now e h
    simp [save_insert, h]
  · intro hash e h
    have hb : (e.event_hash == "") = false := by
      simpa using h
    simp [save_update, hb]

/-- Claim C3, witness: two events differing only in object_repr hash
identically under a concrete digest; the first save of a fresh event stores
the hash of the inserted state; a second save of an already-hashed event is
the identity. -/
theorem event_hash_pure_write_once_witness :
    compute_hash hLen evReprA = compute_hash hLen evReprB
    ∧ (save_insert hLen "2026-01-01T00:00:00" (evFresh "1")).event_hash
        = compute_hash hLen { evFresh "1" with created_at := some "2026-01-01T00:00:00" }
    ∧ save_update hLen evHashed = evHashed :=
  ⟨event_hash_pure_write_once.1 hLen evReprA evReprB rfl rfl rfl rfl rfl rfl rfl rfl
      rfl rfl,
   event_hash_pure_write_once.2.1 hLen "2026-01-01T00:00:00" (evFresh "1") rfl,
   event_hash_pure_write_once.2.2 hLen evHashed (by decide)⟩

/-- Claim C4, counterexample: the only period of stateC4 is CLOSED, yet
form_valid persists a new draft entry (with its balanced lines) under it -
there is no PeriodNotOpen failure and the persisted state keeps the entry. -/
theorem create_under_closed_period_succeeds :
    periodClosed.status = "CLOSED"
    ∧ entryC4.period = periodClosed.id
    ∧ entryC4.status = "DRAFT"
    ∧ (form_valid stateC4 entryC4 linesC4).entries = [entryC4]
    ∧ (form_valid stateC4 entryC4 linesC4).lines = linesC4 := by
  decide

/-- Claim C4, amended: entry creation performs no period-status check at
all - form_valid saves the master entry unconditionally, for every period
status including LOCKED and CLOSED, and never writes the periods. -/
theorem form_valid_ignores_period_status :
    ∀ (s : LedgerState) (e : JournalEntryRec) (ls : List JournalLineRec),
      e ∈ (form_valid s e ls).entries ∧ (form_valid s e ls).periods = s.periods := by
  intro s e ls
  constructor
  · unfold form_valid
    split <;> simp
  · unfold form_valid
    split <;> rfl

/-- Claim C5, counterexample: the draft entry of stateU carries no
caller-supplied reference; the post action turns it POSTED with the
reference still empty - no journal-scoped sequence reference is assigned. -/
theorem post_entries_assigns_no_reference :
    ((post_entries (fun _ => true) stateU).entries.map (fun e => e.reference) = [""])
    ∧ ((post_entries (fun _ => true) stateU).entries.map (fun e => e.status)
        = ["POSTED"]) := by
  decide

/-- Claim C5, amended: the post action never writes the reference column -
every entry keeps exactly the reference it had, so entries posted without a
caller-supplied reference keep an empty reference and no monotone,
gap-free, journal-scoped numbering exists. -/
theorem post_entries_preserves_references :
    ∀ (sel : Nat → Bool) (s : LedgerState),
      (post_entries sel s).entries.map (fun e => e.reference)
        = s.entries.map (fun e => e.reference) := by
  intro sel s
  simp [post_entries, List.map_map, Function.comp, postOne_reference]

/-- Claim C6: is_balanced holds exactly when the debit and credit sums over
the entry's lines are equal as exact decimal amounts; an entry with no
lines totals zero on each side and counts as balanced; and the
amount_currency column never enters the comparison - rewriting it on every
line leaves is_balanced unchanged. -/
theorem is_balanced_exact_sums :
    ∀ (eid : Nat) (ls : List JournalLineRec) (g : JournalLineRec → Int),
      (is_balanced eid ls = true ↔ total_debit eid ls = total_credit eid ls)
      ∧ total_debit eid ([] : List JournalLineRec) = 0
      ∧ total_credit eid ([] : List JournalLineRec) = 0
      ∧ is_balanced eid ([] : List JournalLineRec) = true
      ∧ is_balanced eid (ls.map (fun l => { l with amount_currency := g l }))
          = is_balanced eid ls := by
  intro eid ls g
  refine ⟨?_, rfl, rfl, rfl, ?_⟩
  · simp [is_balanced]
  · unfold is_balanced
    rw [total_debit_map_amount, total_credit_map_amount]

/-- Claim C7: the check constraint line_debit_or_credit_only admits exactly
the lines with a positive debit and zero credit, a positive credit and zero
debit, or both zero - hence both columns are nonnegative and never both
positive; and the constraint is preserved by the operations that write
lines: post and cancel never touch lines, and creation only persists lines
that pass model validation of the constraint. -/
theorem line_sign_invariant :
    ∀ (l : JournalLineRec) (sel : Nat → Bool) (s : LedgerState)
      (e : JournalEntryRec) (ls : List JournalLineRec),
      (lineCheck l →
        0 ≤ l.debit ∧ 0 ≤ l.credit ∧ ¬(0 < l.debit ∧ 0 < l.credit)
        ∧ ((0 < l.debit ∧ l.credit = 0) ∨ (0 < l.credit ∧ l.debit = 0)
            ∨ (l.debit = 0 ∧ l.credit = 0)))
      ∧ ((∀ x ∈ s.lines, lineCheck x) →
          (∀ x ∈ (post_entries sel s).lines, lineCheck x)
          ∧ (∀ x ∈ (cancel_entries sel s).lines, lineCheck x)
          ∧ (∀ x ∈ (form_valid s e ls).lines, lineCheck x)) := by
  intro l sel s e ls
  constructor
  · intro h
    unfold lineCheck at h
    omega
  · intro hs
    refine ⟨hs, hs, ?_⟩
    intro x hx
    unfold form_valid at hx
    by_cases hall : ls.all (fun l => decide (lineCheck l)) = true
    · rw [if_pos hall] at hx
      rcases List.mem_append.mp hx with hmem | hmem
      · exact hs x hmem
      · exact of_decide_eq_true (List.all_eq_true.mp hall x hmem)
    · rw [if_neg hall] at hx
      exact hs x hx

/-- Claim C7, witness: the constraint facts at the concrete debit line
lineU1 and preservation across the post action on the concrete ledger
stateD. -/
theorem line_sign_invariant_witness :
    (0 ≤ lineU1.debit ∧ 0 ≤ lineU1.credit ∧ ¬(0 < lineU1.debit ∧ 0 < lineU1.credit)
      ∧ ((0 < lineU1.debit ∧ lineU1.credit = 0) ∨ (0 < lineU1.credit ∧ lineU1.debit = 0)
          ∨ (lineU1.debit = 0 ∧ lineU1.credit = 0)))
    ∧ (∀ x ∈ (post_entries (fun _ => true) stateD).lines, lineCheck x) :=
  ⟨(line_sign_invariant lineU1 (fun _ => true) stateD entryD [lineD]).1 (by decide),
   ((line_sign_invariant lineU1 (fun _ => true) stateD entryD [lineD]).2
      (by decide)).1⟩

/-- Claim C8, counterexample: cancelling the draft entry of stateD does not
delete anything - the entry survives with status CANCELLED and its line is
still stored. -/
theorem cancel_entries_does_not_delete :
    ((cancel_entries (fun _ => true) stateD).entries
        = [{ entryD with status := "CANCELLED" }])
    ∧ (cancel_entries (fun _ => true) stateD).lines = [lineD] := by
  decide

/-- Claim C8, amended: cancel only affects entries whose status is DRAFT -
an entry in any other status is left unchanged - and on success it marks
the entry CANCELLED in place rather than deleting it: the entry count is
preserved and the lines are untouched. -/
theorem cancel_entries_marks_not_deletes :
    ∀ (sel : Nat → Bool) (s : LedgerState) (e : JournalEntryRec),
      e ∈ s.entries →
        (e.status ≠ "DRAFT" → e ∈ (cancel_entries sel s).entries)
        ∧ (e.status = "DRAFT" → sel e.id = true →
            { e with status := "CANCELLED" } ∈ (cancel_entries sel s).entries)
        ∧ (cancel_entries sel s).lines = s.lines
        ∧ (cancel_entries sel s).entries.length = s.entries.length := by
  intro sel s e he
  refine ⟨?_, ?_, rfl, by simp [cancel_entries]⟩
  · intro hne
    have hb : (e.status == "DRAFT") = false := by
      simpa using hne
    exact List.mem_map.mpr ⟨e, he, by simp [cancelOne, hb]⟩
  · intro hs hsel
    exact List.mem_map.mpr ⟨e, he, by simp [cancelOne, hs, hsel]⟩

/-- Claim C8, witness for the amended theorem at the concrete draft ledger
stateD. -/
theorem cancel_entries_marks_not_deletes_witness :
    { entryD with status := "CANCELLED" } ∈ (cancel_entries (fun _ => true) stateD).entries
    ∧ (cancel_entries (fun _ => true) stateD).lines = stateD.lines :=
  ⟨((cancel_entries_marks_not_deletes (fun _ => true) stateD entryD
      (by decide)).2.1 rfl rfl),
   (cancel_entries_marks_not_deletes (fun _ => true) stateD entryD
      (by decide)).2.2.1⟩

/-- Claim C9, counterexample: the row fx0 carries a rate of exactly zero
between two distinct currencies and is accepted by the persistence gate -
MinValueValidator 0 admits zero - so a zero rate can be stored. -/
theorem zero_rate_is_storable :
    fxInsert [] fx0 = some [fx0] ∧ fx0.rate = 0 := by
  decide

/-- Claim C9, amended: every stored ExchangeRate satisfies rate greater
than or equal to zero (a zero rate is admitted) and distinct base and quote
currencies, and the unique constraint keeps at most one row per
tenant-date-base-quote key. -/
theorem fx_insert_invariants :
    ∀ (tbl tbl2 : List ExchangeRateRec) (r : ExchangeRateRec),
      fxInsert tbl r = some tbl2 →
        0 ≤ r.rate ∧ r.base_currency ≠ r.quote_currency
        ∧ tbl2 = tbl ++ [r]
        ∧ (List.Pairwise (fun a b => fxKey a ≠ fxKey b) tbl →
            List.Pairwise (fun a b => fxKey a ≠ fxKey b) tbl2) := by
  intro tbl tbl2 r h
  unfold fxInsert at h
  by_cases hc :
      (decide (fxAdmissible r) && tbl.all (fun q => !(decide (fxKey q = fxKey r)))) = true
  · rw [if_pos hc] at h
    have htbl2 : tbl2 = tbl ++ [r] := (Option.some.inj h).symm
    have hadm : fxAdmissible r := of_decide_eq_true (Bool.and_elim_left hc)
    have hkeys : ∀ q ∈ tbl, fxKey q ≠ fxKey r := by
      intro q hq
      have := List.all_eq_true.mp (Bool.and_elim_right hc) q hq
      simpa using this
    refine ⟨hadm.1, hadm.2, htbl2, ?_⟩
    intro hp
    rw [htbl2]
    refine List.pairwise_append.mpr ⟨hp, List.pairwise_singleton _ _, ?_⟩
    intro a ha b hb
    rw [List.mem_singleton.mp hb]
    exact hkeys a ha
  · rw [if_neg hc] at h
    exact absurd h (by simp)

/-- Claim C9, witness for the amended theorem: inserting the zero-rate row
into an empty table. -/
theorem fx_insert_invariants_witness :
    0 ≤ fx0.rate ∧ fx0.base_currency ≠ fx0.quote_currency
    ∧ List.Pairwise (fun a b => fxKey a ≠ fxKey b) [fx0] :=
  ⟨(fx_insert_invariants [] [fx0] fx0 (by decide)).1,
   (fx_insert_invariants [] [fx0] fx0 (by decide)).2.1,
   ((fx_insert_invariants [] [fx0] fx0 (by decide)).2.2.2 List.Pairwise.nil)⟩

/-- Claim C10: both queryset scopes only ever return rows of the tenant
resolved from the request; an unresolved tenant yields the empty result,
never an unfiltered one; and two requests whose resolved tenants differ
observe disjoint result sets. -/
theorem tenant_scoping_isolation :
    ∀ (t tid t2 tid2 rt rt2 : Option Nat) (qs : List ObjRec) (o : ObjRec),
      (o ∈ api_get_queryset rt qs → rt = some o.tenant ∧ o ∈ qs)
      ∧ api_get_queryset none qs = []
      ∧ (rt ≠ rt2 → o ∈ api_get_queryset rt qs → o ∉ api_get_queryset rt2 qs)
      ∧ (o ∈ web_get_queryset t tid qs → webResolved t tid = some o.tenant ∧ o ∈ qs)
      ∧ (webResolved t tid = none → web_get_queryset t tid qs = [])
      ∧ (webResolved t tid ≠ webResolved t2 tid2 →
          o ∈ web_get_queryset t tid qs → o ∉ web_get_queryset t2 tid2 qs) := by
  intro t tid t2 tid2 rt rt2 qs o
  refine ⟨?_, rfl, ?_, ?_, ?_, ?_⟩
  · intro h
    have := (api_mem_iff rt qs o).mp h
    exact ⟨this.2, this.1⟩
  · intro hne h1 h2
    have a1 := (api_mem_iff rt qs o).mp h1
    have a2 := (api_mem_iff rt2 qs o).mp h2
    exact hne (a1.2.trans a2.2.symm)
  · intro h
    rw [web_eq_api] at h
    have := (api_mem_iff (webResolved t tid) qs o).mp h
    exact ⟨this.2, this.1⟩
  · intro h
    rw [web_eq_api, h]
    rfl
  · intro hne h1 h2
    rw [web_eq_api] at h1 h2
    have a1 := (api_mem_iff (webResolved t tid) qs o).mp h1
    have a2 := (api_mem_iff (webResolved t2 tid2) qs o).mp h2
    exact hne (a1.2.trans a2.2.symm)

/-- Claim C10, witness: a concrete store with rows of tenants 10 and 20; a
request resolving tenant 10 sees its own row, an unresolved request sees
nothing, and a request resolving tenant 20 cannot see tenant 10's row. -/
theorem tenant_scoping_isolation_witness :
    ((some 10 : Option Nat) = some (ObjRec.mk 1 10).tenant
      ∧ ObjRec.mk 1 10 ∈ [ObjRec.mk 1 10, ObjRec.mk 2 20])
    ∧ api_get_queryset none [ObjRec.mk 1 10, ObjRec.mk 2 20] = []
    ∧ ObjRec.mk 1 10 ∉
        api_get_queryset (some 20) [ObjRec.mk 1 10, ObjRec.mk 2 20] :=
  ⟨(tenant_scoping_isolation none none none none (some 10) (some 20)
      [ObjRec.mk 1 10, ObjRec.mk 2 20] (ObjRec.mk 1 10)).1 (by decide),
   (tenant_scoping_isolation none none none none (some 10) (some 20)
      [ObjRec.mk 1 10, ObjRec.mk 2 20] (ObjRec.mk 1 10)).2.1,
   (tenant_scoping_isolation none none none none (some 10) (some 20)
      [ObjRec.mk 1 10, ObjRec.mk 2 20] (ObjRec.mk 1 10)).2.2.1 (by decide)
      (by decide)⟩

end Lynerp
